import Mathlib

/-!
Shallow embedding of the Job Application Assistant (`src/app.py`).

Python dictionaries holding the experience / education entries of a profile
are modelled as structures whose fields are `Option String`: `none` means the
key is absent (a subscript lookup on it raises `KeyError` in Python, which
the embedding renders as an `Option`-valued computation returning `none`).
The JSON objects written by `to_dict` / read by `from_dict` are modelled as
typed dictionaries whose fields are `Option`-wrapped (key present or absent);
`json.dump`/`json.load` round-trips strings, string lists and `null`
faithfully, so persistence is modelled at the dictionary level.  The
filesystem is a map from path to optional stored dictionary.  The OpenAI
chat-completion endpoint is modelled as an oracle `llm : String → String`
given the prompt; each generator returns the produced text (`none` when the
Python code would raise before returning) together with the number of
network calls it performed.
-/

namespace JobApp

/-- A Python dict for one work experience, keys `company/role/duration/description`;
`none` models an absent key. -/
structure ExpDict where
  company : Option String
  role : Option String
  duration : Option String
  description : Option String
  deriving DecidableEq, Repr

/-- A Python dict for one education entry, keys `institution/degree/graduation_year`. -/
structure EduDict where
  institution : Option String
  degree : Option String
  graduation_year : Option String
  deriving DecidableEq, Repr

/-- `UserProfile` from `app.py` (lines 49-94). -/
structure UserProfile where
  full_name : String
  contact_email : String
  phone_number : String
  professional_summary : String
  skills : List String
  experiences : List ExpDict
  education : List EduDict
  deriving DecidableEq, Repr

/-- `JobDescription` from `app.py` (lines 97-140); `additional_notes` is
`Optional[str]` with default `None`. -/
structure JobDescription where
  company_name : String
  position_title : String
  responsibilities : String
  required_skills : List String
  job_location : String
  job_summary : String
  additional_notes : Option String
  deriving DecidableEq, Repr

/-- The JSON object produced/consumed for a profile; each field is `Option`
because `from_dict` tolerates absent keys via `data.get(key, default)`. -/
structure UserProfileDict where
  full_name : Option String
  contact_email : Option String
  phone_number : Option String
  professional_summary : Option String
  skills : Option (List String)
  experiences : Option (List ExpDict)
  education : Option (List EduDict)
  deriving DecidableEq, Repr

/-- The JSON object for a job description.  The stored `additional_notes`
value may itself be `null`, hence `Option (Option String)`: the outer layer is
key presence, the inner one the stored value. -/
structure JobDescriptionDict where
  company_name : Option String
  position_title : Option String
  responsibilities : Option String
  required_skills : Option (List String)
  job_location : Option String
  job_summary : Option String
  additional_notes : Option (Option String)
  deriving DecidableEq, Repr

/-- `UserProfile.to_dict` (app.py lines 73-82): every key is emitted. -/
def UserProfile.to_dict (p : UserProfile) : UserProfileDict :=
  { full_name := some p.full_name
    contact_email := some p.contact_email
    phone_number := some p.phone_number
    professional_summary := some p.professional_summary
    skills := some p.skills
    experiences := some p.experiences
    education := some p.education }

/-- `UserProfile.from_dict` (app.py lines 84-94): `data.get(key, default)`. -/
def UserProfile.from_dict (d : UserProfileDict) : UserProfile :=
  { full_name := d.full_name.getD ""
    contact_email := d.contact_email.getD ""
    phone_number := d.phone_number.getD ""
    professional_summary := d.professional_summary.getD ""
    skills := d.skills.getD []
    experiences := d.experiences.getD []
    education := d.education.getD [] }

/-- `JobDescription.to_dict` (app.py lines 119-128). -/
def JobDescription.to_dict (j : JobDescription) : JobDescriptionDict :=
  { company_name := some j.company_name
    position_title := some j.position_title
    responsibilities := some j.responsibilities
    required_skills := some j.required_skills
    job_location := some j.job_location
    job_summary := some j.job_summary
    additional_notes := some j.additional_notes }

/-- `JobDescription.from_dict` (app.py lines 130-140): note
`data.get` on the notes key returns the stored value (possibly `None`)
when the key is present, and the default empty string only when it is
absent. -/
def JobDescription.from_dict (d : JobDescriptionDict) : JobDescription :=
  { company_name := d.company_name.getD ""
    position_title := d.position_title.getD ""
    responsibilities := d.responsibilities.getD ""
    required_skills := d.required_skills.getD []
    job_location := d.job_location.getD ""
    job_summary := d.job_summary.getD ""
    additional_notes := d.additional_notes.getD (some "") }

/-- `load_user_profile` (app.py lines 229-239): a missing file yields
the all-empty blank profile. -/
def load_user_profile (profile_file : String)
    (fs : String → Option UserProfileDict) : UserProfile :=
  match fs profile_file with
  | none => UserProfile.mk "" "" "" "" [] [] []
  | some data => UserProfile.from_dict data

/-- `save_user_profile` (app.py lines 242-248): writes `profile.to_dict()` at
the given path, overwriting; returns the updated filesystem. -/
def save_user_profile (profile : UserProfile) (profile_file : String)
    (fs : String → Option UserProfileDict) : String → Option UserProfileDict :=
  fun q => if q = profile_file then some profile.to_dict else fs q

/-- `load_job_description` (app.py lines 251-261): a missing file yields
the blank job record, whose `additional_notes` defaults to `None` because
the constructor is called without that argument. -/
def load_job_description (job_file : String)
    (fs : String → Option JobDescriptionDict) : JobDescription :=
  match fs job_file with
  | none => JobDescription.mk "" "" "" [] "" "" none
  | some data => JobDescription.from_dict data

/-- `save_job_description` (app.py lines 264-270). -/
def save_job_description (job_desc : JobDescription) (job_file : String)
    (fs : String → Option JobDescriptionDict) : String → Option JobDescriptionDict :=
  fun q => if q = job_file then some job_desc.to_dict else fs q

/-- `JakesResumeFormatter.get_format_instructions` (app.py lines 152-176). -/
def JakesResumeFormatter.get_format_instructions : String :=
  "Use Jake\x27s Resume Format:\n" ++
  "1. Header with the candidate\x27s name in a bold or emphasized style.\n" ++
  "2. Immediately below, contact details (email and phone) on one line.\n" ++
  "3. A short \x27Professional Summary\x27 section.\n" ++
  "4. A \x27Skills\x27 section with bullet points.\n" ++
  "5. An \x27Experience\x27 section in chronological order (most recent first).\n" ++
  "6. An \x27Education\x27 section with degrees, institutions, and graduation dates.\n" ++
  "7. Keep layout neat and minimal, using consistent headings.\n"

/-- `JakesResumeFormatter.post_process_text` (app.py lines 178-186): returns
the text as is. -/
def JakesResumeFormatter.post_process_text (llm_output : String) : String :=
  llm_output

/-- `DedyCoverLetterFormatter.get_format_instructions` (app.py lines 194-215). -/
def DedyCoverLetterFormatter.get_format_instructions : String :=
  "Use Dedy\x27s Cover Letter Format:\n" ++
  "1. Start with a polite salutation (e.g., \x27Dear Hiring Manager at COMPANY\x27).\n" ++
  "2. A short introduction referencing the position title and why you\x27re interested.\n" ++
  "3. One or two concise paragraphs connecting your key skills to the job requirements.\n" ++
  "4. A concluding paragraph that reaffirms your interest and gratitude.\n" ++
  "5. A formal sign-off (e.g., \x27Sincerely,\x27) followed by your full name.\n" ++
  "6. Maintain a professional yet friendly tone throughout.\n"

/-- `DedyCoverLetterFormatter.post_process_text` (app.py lines 217-223). -/
def DedyCoverLetterFormatter.post_process_text (llm_output : String) : String :=
  llm_output

/-- Python truthiness of the credential: `None` and the empty string are
falsy in the if-not check on `openai.api_key`. -/
def pyTruthy : Option String → Bool
  | none => false
  | some s => !s.isEmpty

/-- The Python or-default on an optional string: falsy (`None` or the empty
string) becomes the `N/A` literal. -/
def pyOrNA : Option String → String
  | none => "N/A"
  | some s => if s.isEmpty then "N/A" else s

/-- Python f-string rendering of an optional string value: `None` prints as
the text `None`, a string prints verbatim. -/
def pyStrOfNotes : Option String → String
  | none => "None"
  | some s => s

/-- The two lines `build_base_resume_text` appends per experience
(app.py lines 400-402); `none` when a key lookup would raise `KeyError`. -/
def expEntryLines (exp : ExpDict) : Option (List String) :=
  match exp.role, exp.company, exp.duration, exp.description with
  | some r, some c, some d, some ds =>
      some [r ++ " at " ++ c ++ " (" ++ d ++ ")", "  " ++ ds]
  | _, _, _, _ => none

/-- The experience lines accumulated over `user.experiences`. -/
def expSectionLines : List ExpDict → Option (List String)
  | [] => some []
  | e :: es =>
      match expEntryLines e with
      | none => none
      | some l =>
          match expSectionLines es with
          | none => none
          | some rest => some (l ++ rest)

/-- The line `build_base_resume_text` appends per education entry
(app.py lines 405-406). -/
def eduEntryLine (edu : EduDict) : Option String :=
  match edu.degree, edu.institution, edu.graduation_year with
  | some dg, some inst, some gy =>
      some (dg ++ " from " ++ inst ++ " - " ++ gy)
  | _, _, _ => none

/-- The education lines accumulated over `user.education`. -/
def eduSectionLines : List EduDict → Option (List String)
  | [] => some []
  | e :: es =>
      match eduEntryLine e with
      | none => none
      | some l =>
          match eduSectionLines es with
          | none => none
          | some rest => some (l :: rest)

/-- `build_base_resume_text` (app.py lines 383-408): builds the list of lines
and joins with newline; `none` models the `KeyError` raised when an
experience or education dict lacks one of the accessed keys. -/
def build_base_resume_text (user : UserProfile) : Option String :=
  match expSectionLines user.experiences with
  | none => none
  | some expL =>
      match eduSectionLines user.education with
      | none => none
      | some eduL =>
          some (String.intercalate "\n"
            (["Name: " ++ user.full_name,
              "Email: " ++ user.contact_email,
              "Phone: " ++ user.phone_number,
              "\nProfessional Summary:",
              user.professional_summary,
              "\nSkills:"]
              ++ user.skills.map (fun skill => "- " ++ skill)
              ++ ["\nExperience:"] ++ expL
              ++ ["\nEducation:"] ++ eduL))

/-- The fixed opening of the tailored-resume prompt (app.py lines 424-427). -/
def resumePromptIntro : String :=
  "You are a helpful assistant that customizes resumes.\n" ++
  "Given the following base resume and job description,\n" ++
  "produce a final tailored resume that emphasizes relevant\n" ++
  "skills and experiences. Keep length concise but effective.\n\n"

/-- The job-description block of the tailored-resume prompt
(app.py lines 431-439), with the or-default `N/A` on the notes. -/
def resumeJobSection (job : JobDescription) : String :=
  "Job Description:\n" ++
  "Company Name: " ++ job.company_name ++ "\n" ++
  "Position Title: " ++ job.position_title ++ "\n" ++
  "Responsibilities:\n" ++ job.responsibilities ++ "\n" ++
  "Required Skills: " ++ String.intercalate ", " job.required_skills ++ "\n" ++
  "Location: " ++ job.job_location ++ "\n" ++
  "Job Summary:\n" ++ job.job_summary ++ "\n" ++
  "Additional Notes: " ++ pyOrNA job.additional_notes ++ "\n\n" ++
  "Final Tailored Resume (following Jake\x27s format):"

/-- The prompt `generate_tailored_resume` sends (app.py lines 420-440);
`none` when building the base resume raises. -/
def buildResumePrompt (user : UserProfile) (job : JobDescription) : Option String :=
  (build_base_resume_text user).map (fun base =>
    resumePromptIntro ++ JakesResumeFormatter.get_format_instructions ++ "\n" ++
    "Base Resume:\n" ++ base ++ "\n\n" ++ resumeJobSection job)

/-- `generate_tailored_resume` (app.py lines 411-453).  `api_key` models
`openai.api_key`, `llm` the remote completion for a prompt; the second
component counts `openai.ChatCompletion.create` calls.  A `none` first
component models an uncaught exception before any text is returned. -/
def generate_tailored_resume (api_key : Option String) (llm : String → String)
    (user : UserProfile) (job : JobDescription) : Option String × Nat :=
  if !pyTruthy api_key then
    (some "[ERROR] OpenAI API key not found. Cannot generate tailored resume.", 0)
  else
    match buildResumePrompt user job with
    | none => (none, 0)
    | some prompt =>
        (some (JakesResumeFormatter.post_process_text ((llm prompt).trim)), 1)

/-- The fixed opening of the cover-letter prompt, through the
experiences header (app.py lines 467-477). -/
def coverPromptHead (user : UserProfile) : String :=
  "You are an expert at writing professional cover letters. Given the " ++
  "user\x27s details and the job description, write a cover letter that is " ++
  "polite, engaging, concise, and highlights the user\x27s relevant skills, " ++
  "experiences, and genuine interest. Follow Dedy\x27s cover letter format.\n\n" ++
  DedyCoverLetterFormatter.get_format_instructions ++ "\n\n" ++
  "User\x27s Name: " ++ user.full_name ++ "\n" ++
  "Professional Summary: " ++ user.professional_summary ++ "\n" ++
  "Key Skills: " ++ String.intercalate ", " user.skills ++ "\n\n" ++
  "User\x27s Experiences:\n"

/-- One enumerated experience line of the cover-letter prompt
(app.py lines 479-483), with its 1-based index. -/
def coverExpLine (idx : Nat) (exp : ExpDict) : Option String :=
  match exp.role, exp.company, exp.duration, exp.description with
  | some r, some c, some d, some ds =>
      some (toString idx ++ ". " ++ r ++ " at " ++ c ++ " (" ++ d ++ "): " ++ ds ++ "\n")
  | _, _, _, _ => none

/-- The enumerated-experiences block built by the
`for idx, exp in enumerate(user.experiences, start=1)` loop. -/
def coverExpLines : Nat → List ExpDict → Option String
  | _, [] => some ""
  | idx, e :: es =>
      match coverExpLine idx e with
      | none => none
      | some l =>
          match coverExpLines (idx + 1) es with
          | none => none
          | some rest => some (l ++ rest)

/-- The job-description block of the cover-letter prompt
(app.py lines 485-495): the notes are f-string rendered with no default. -/
def coverJobSection (job : JobDescription) : String :=
  "\nJob Description:\n" ++
  "Company Name: " ++ job.company_name ++ "\n" ++
  "Position Title: " ++ job.position_title ++ "\n" ++
  "Responsibilities:\n" ++ job.responsibilities ++ "\n" ++
  "Required Skills: " ++ String.intercalate ", " job.required_skills ++ "\n" ++
  "Location: " ++ job.job_location ++ "\n" ++
  "Job Summary:\n" ++ job.job_summary ++ "\n" ++
  "Additional Notes: " ++ pyStrOfNotes job.additional_notes ++ "\n\n" ++
  "Now write the cover letter following Dedy\x27s format."

/-- The prompt `generate_cover_letter` sends (app.py lines 467-495). -/
def buildCoverLetterPrompt (user : UserProfile) (job : JobDescription) :
    Option String :=
  (coverExpLines 1 user.experiences).map (fun l =>
    coverPromptHead user ++ l ++ coverJobSection job)

/-- `generate_cover_letter` (app.py lines 456-506), modelled like
`generate_tailored_resume`. -/
def generate_cover_letter (api_key : Option String) (llm : String → String)
    (user : UserProfile) (job : JobDescription) : Option String × Nat :=
  if !pyTruthy api_key then
    (some "[ERROR] OpenAI API key not found. Cannot generate cover letter.", 0)
  else
    match buildCoverLetterPrompt user job with
    | none => (none, 0)
    | some prompt =>
        (some (DedyCoverLetterFormatter.post_process_text ((llm prompt).trim)), 1)

/-- A wall-clock instant at second resolution, the granularity the
`datetime.datetime.now().strftime` call with pattern `%Y%m%d_%H%M%S`
observes. -/
@[ext]
structure Timestamp where
  year : Nat
  month : Nat
  day : Nat
  hour : Nat
  minute : Nat
  second : Nat
  deriving DecidableEq, Repr

/-- Ranges an actual `datetime.datetime.now()` satisfies (its year is
1 ≤ y ≤ 9999). -/
def Timestamp.valid (t : Timestamp) : Prop :=
  t.year < 10000 ∧ 1 ≤ t.month ∧ t.month ≤ 12 ∧ 1 ≤ t.day ∧ t.day ≤ 31 ∧
    t.hour < 24 ∧ t.minute < 60 ∧ t.second < 60

instance (t : Timestamp) : Decidable t.valid := by
  unfold Timestamp.valid; infer_instance

/-- Two-digit zero-padded decimal field (`%m`, `%d`, `%H`, `%M`, `%S`). -/
def pad2 (n : Nat) : List Char :=
  [Nat.digitChar (n / 10), Nat.digitChar (n % 10)]

/-- Four-digit zero-padded decimal field (`%Y`). -/
def pad4 (n : Nat) : List Char :=
  [Nat.digitChar (n / 1000), Nat.digitChar (n / 100 % 10),
   Nat.digitChar (n / 10 % 10), Nat.digitChar (n % 10)]

/-- `strftime` with pattern `%Y%m%d_%H%M%S` on a timestamp in the valid
ranges. -/
def strftimeTs (t : Timestamp) : String :=
  String.mk (pad4 t.year ++ pad2 t.month ++ pad2 t.day ++ ['_'] ++
    pad2 t.hour ++ pad2 t.minute ++ pad2 t.second)

/-- `create_output_filenames` (app.py lines 520-530), with the current time
passed explicitly; returns the `(resume, cover_letter)` filename pair. -/
def create_output_filenames (base_name : String) (now : Timestamp) :
    String × String :=
  (base_name ++ "_resume_" ++ strftimeTs now ++ ".txt",
   base_name ++ "_cover_letter_" ++ strftimeTs now ++ ".txt")

/-- Substring containment on strings, stated over their character lists. -/
def strContains (s pat : String) : Prop :=
  ∃ a b : List Char, s.data = a ++ pat.data ++ b

theorem strContains_of_eq (s x pat y : String) (h : s = x ++ pat ++ y) :
    strContains s pat :=
  ⟨x.data, y.data, by subst h; simp [String.data_append]⟩

/-- C1: saving a `UserProfile` or `JobDescription` to a JSON file and loading
it back yields a record equal field-for-field to the original:
`load(save(x)) == x`. -/
theorem save_load_roundtrip (p : UserProfile) (j : JobDescription)
    (f g : String) (fsP : String → Option UserProfileDict)
    (fsJ : String → Option JobDescriptionDict) :
    load_user_profile f (save_user_profile p f fsP) = p ∧
    load_job_description g (save_job_description j g fsJ) = j := by
  constructor
  · simp [load_user_profile, save_user_profile, UserProfile.from_dict,
      UserProfile.to_dict]
  · simp [load_job_description, save_job_description, JobDescription.from_dict,
      JobDescription.to_dict]

/-- C2: with no credential configured, `generate_tailored_resume` and
`generate_cover_letter` both return their literal error string and perform
zero text-completion calls, whatever the remote endpoint would have
answered. -/
theorem generators_error_without_key (llm : String → String)
    (u : UserProfile) (j : JobDescription) :
    generate_tailored_resume none llm u j =
      (some "[ERROR] OpenAI API key not found. Cannot generate tailored resume.", 0) ∧
    generate_cover_letter none llm u j =
      (some "[ERROR] OpenAI API key not found. Cannot generate cover letter.", 0) :=
  ⟨rfl, rfl⟩

/-- C4 counterexample: loading a job description from a missing file yields
`additional_notes = None` (the constructor default), which is not the empty
string — so not every field of the blank record is an empty string or empty
sequence. -/
theorem load_missing_job_notes_are_none :
    (load_job_description "job_description.json" (fun _ => none)).additional_notes
        = none ∧
    (load_job_description "job_description.json" (fun _ => none)).additional_notes
        ≠ some "" :=
  ⟨rfl, by decide⟩

/-- C4 (amended): loading from a path with no file returns the blank records:
every string field is `""`, every sequence field is `[]`, and the optional
`additional_notes` field of the job record is `None` (absent), not `""`. -/
theorem load_missing_returns_blank (f g : String)
    (fsP : String → Option UserProfileDict)
    (fsJ : String → Option JobDescriptionDict)
    (hP : fsP f = none) (hJ : fsJ g = none) :
    load_user_profile f fsP = UserProfile.mk "" "" "" "" [] [] [] ∧
    load_job_description g fsJ = JobDescription.mk "" "" "" [] "" "" none := by
  unfold load_user_profile load_job_description
  rw [hP, hJ]
  exact ⟨rfl, rfl⟩

/-- C4 witness: the amended theorem applied at an empty filesystem. -/
theorem load_missing_returns_blank_witness :
    load_user_profile "user_profile.json" (fun _ => none) =
      UserProfile.mk "" "" "" "" [] [] [] ∧
    load_job_description "job_description.json" (fun _ => none) =
      JobDescription.mk "" "" "" [] "" "" none :=
  load_missing_returns_blank "user_profile.json" "job_description.json"
    (fun _ => none) (fun _ => none) rfl rfl

theorem expSectionLines_isSome (l : List ExpDict)
    (h : ∀ e ∈ l, e.role.isSome ∧ e.company.isSome ∧ e.duration.isSome ∧
      e.description.isSome) : (expSectionLines l).isSome := by
  induction l with
  | nil => exact rfl
  | cons e es ih =>
      obtain ⟨hr, hc, hd, hds⟩ := h e (List.mem_cons_self e es)
      obtain ⟨r, hr⟩ := Option.isSome_iff_exists.mp hr
      obtain ⟨c, hc⟩ := Option.isSome_iff_exists.mp hc
      obtain ⟨d, hd⟩ := Option.isSome_iff_exists.mp hd
      obtain ⟨ds, hds⟩ := Option.isSome_iff_exists.mp hds
      obtain ⟨rest, hrest⟩ :=
        Option.isSome_iff_exists.mp (ih (fun x hx => h x (List.mem_cons_of_mem e hx)))
      simp [expSectionLines, expEntryLines, hr, hc, hd, hds, hrest]

theorem eduSectionLines_isSome (l : List EduDict)
    (h : ∀ ed ∈ l, ed.degree.isSome ∧ ed.institution.isSome ∧
      ed.graduation_year.isSome) : (eduSectionLines l).isSome := by
  induction l with
  | nil => exact rfl
  | cons e es ih =>
      obtain ⟨hg, hi, hy⟩ := h e (List.mem_cons_self e es)
      obtain ⟨dg, hg⟩ := Option.isSome_iff_exists.mp hg
      obtain ⟨inst, hi⟩ := Option.isSome_iff_exists.mp hi
      obtain ⟨gy, hy⟩ := Option.isSome_iff_exists.mp hy
      obtain ⟨rest, hrest⟩ :=
        Option.isSome_iff_exists.mp (ih (fun x hx => h x (List.mem_cons_of_mem e hx)))
      simp [eduSectionLines, eduEntryLine, hg, hi, hy, hrest]

/-- A profile whose single experience dict lacks the `role` key. -/
def missingKeyProfile : UserProfile :=
  { full_name := "Grace", contact_email := "g@example.com", phone_number := "1",
    professional_summary := "s", skills := [],
    experiences := [{ company := some "Acme", role := none,
                      duration := some "2020", description := some "d" }],
    education := [] }

/-- C9: `build_base_resume_text` succeeds on every profile whose experience
dicts carry the keys `role/company/duration/description` and whose education
dicts carry `degree/institution/graduation_year` (the `KeyError` branch is
unreachable under that precondition), and it fails (`none`, a `KeyError`) on
a profile whose experience lacks the `role` key. -/
theorem base_resume_requires_entry_keys :
    (∀ u : UserProfile,
       (∀ e ∈ u.experiences, e.role.isSome ∧ e.company.isSome ∧
          e.duration.isSome ∧ e.description.isSome) →
       (∀ ed ∈ u.education, ed.degree.isSome ∧ ed.institution.isSome ∧
          ed.graduation_year.isSome) →
       (build_base_resume_text u).isSome) ∧
    build_base_resume_text missingKeyProfile = none := by
  constructor
  · intro u hexp hedu
    obtain ⟨expL, hE⟩ :=
      Option.isSome_iff_exists.mp (expSectionLines_isSome _ hexp)
    obtain ⟨eduL, hD⟩ :=
      Option.isSome_iff_exists.mp (eduSectionLines_isSome _ hedu)
    simp [build_base_resume_text, hE, hD]
  · rfl

/-- A profile whose entries carry every accessed key. -/
def fullKeyProfile : UserProfile :=
  { full_name := "Grace", contact_email := "g@example.com", phone_number := "1",
    professional_summary := "s", skills := ["Lean"],
    experiences := [{ company := some "Acme", role := some "Dev",
                      duration := some "2020", description := some "d" }],
    education := [{ institution := some "MIT", degree := some "BSc",
                    graduation_year := some "2019" }] }

/-- C9 witness: the precondition holds for `fullKeyProfile` and the builder
succeeds there. -/
theorem base_resume_requires_entry_keys_witness :
    (build_base_resume_text fullKeyProfile).isSome :=
  base_resume_requires_entry_keys.1 fullKeyProfile (by decide) (by decide)

/-- C5: `build_base_resume_text` is embedded as a pure function of the
profile alone — it takes no filesystem, credential, oracle or clock
parameter — so any two evaluations on the same profile are definitionally
equal: it is deterministic and side-effect free. -/
theorem build_base_resume_text_deterministic (u : UserProfile) :
    build_base_resume_text u = build_base_resume_text u :=
  rfl

/-- C8: both post-process hooks are the identity on every string. -/
theorem post_process_text_identity (s : String) :
    JakesResumeFormatter.post_process_text s = s ∧
    DedyCoverLetterFormatter.post_process_text s = s :=
  ⟨rfl, rfl⟩

/-- C3: for a profile with exactly two experiences and a job with exactly
three required skills, the cover-letter prompt consists of its fixed head,
then exactly the two enumerated experience lines with 1-based indices 1 and
2, then the job block — and it contains the comma-joined list of the three
required skills. -/
theorem cover_prompt_two_exps_three_skills
    (u : UserProfile) (j : JobDescription) (e1 e2 : ExpDict)
    (s1 s2 s3 L1 L2 P : String)
    (hexp : u.experiences = [e1, e2])
    (hsk : j.required_skills = [s1, s2, s3])
    (h1 : coverExpLine 1 e1 = some L1)
    (h2 : coverExpLine 2 e2 = some L2)
    (hP : buildCoverLetterPrompt u j = some P) :
    P = coverPromptHead u ++ (L1 ++ L2) ++ coverJobSection j ∧
    strContains P (String.intercalate ", " [s1, s2, s3]) := by
  unfold buildCoverLetterPrompt at hP
  rw [hexp] at hP
  simp only [coverExpLines, h1, h2] at hP
  simp only [Option.map_some', Option.some.injEq] at hP
  subst hP
  constructor
  · simp [String.append_assoc]
  · apply strContains_of_eq _
      (coverPromptHead u ++ (L1 ++ (L2 ++ "")) ++
        ("\nJob Description:\n" ++ "Company Name: " ++ j.company_name ++ "\n" ++
         "Position Title: " ++ j.position_title ++ "\n" ++
         "Responsibilities:\n" ++ j.responsibilities ++ "\n" ++
         "Required Skills: "))
      (String.intercalate ", " [s1, s2, s3])
      ("\n" ++ "Location: " ++ j.job_location ++ "\n" ++
       "Job Summary:\n" ++ j.job_summary ++ "\n" ++
       "Additional Notes: " ++ pyStrOfNotes j.additional_notes ++ "\n\n" ++
       "Now write the cover letter following Dedy\x27s format.")
    simp [coverJobSection, hsk, String.append_assoc]

/-- Concrete experiences and profile for the C3 witness. -/
def c3ExpA : ExpDict :=
  { company := some "Acme", role := some "Dev",
    duration := some "2019-2021", description := some "Built things" }

def c3ExpB : ExpDict :=
  { company := some "Globex", role := some "Lead",
    duration := some "2021-2024", description := some "Led things" }

def c3User : UserProfile :=
  { full_name := "Ada Lovelace", contact_email := "ada@example.com",
    phone_number := "555", professional_summary := "Engineer.",
    skills := ["Python"],
    experiences := [c3ExpA, c3ExpB],
    education := [] }

/-- Concrete three-skill job for the C3 witness. -/
def c3Job : JobDescription :=
  { company_name := "Initech", position_title := "Engineer",
    responsibilities := "Ship code", required_skills := ["React", "Node", "SQL"],
    job_location := "Remote", job_summary := "Great job",
    additional_notes := some "Apply soon" }

/-- The cover-letter prompt the code builds for `c3User`/`c3Job`. -/
def c3Prompt : String := (buildCoverLetterPrompt c3User c3Job).getD ""

/-- The first and second enumerated experience lines of that prompt. -/
def c3Line1 : String := (coverExpLine 1 c3ExpA).getD ""

def c3Line2 : String := (coverExpLine 2 c3ExpB).getD ""

/-- C3 witness: the theorem applied at the concrete profile and job. -/
theorem cover_prompt_two_exps_three_skills_witness :
    c3Prompt = coverPromptHead c3User ++ (c3Line1 ++ c3Line2) ++
      coverJobSection c3Job ∧
    strContains c3Prompt (String.intercalate ", " ["React", "Node", "SQL"]) :=
  cover_prompt_two_exps_three_skills c3User c3Job c3ExpA c3ExpB
    "React" "Node" "SQL" c3Line1 c3Line2 c3Prompt rfl rfl rfl rfl rfl

theorem resumePrompt_notes_slot (u : UserProfile) (j : JobDescription)
    (P : String) (hP : buildResumePrompt u j = some P) :
    strContains P ("Additional Notes: " ++ pyOrNA j.additional_notes ++ "\n\n") := by
  unfold buildResumePrompt at hP
  cases hB : build_base_resume_text u with
  | none => rw [hB] at hP; simp at hP
  | some base =>
      rw [hB] at hP
      simp only [Option.map_some', Option.some.injEq] at hP
      subst hP
      apply strContains_of_eq _
        (resumePromptIntro ++ JakesResumeFormatter.get_format_instructions ++
          "\n" ++ "Base Resume:\n" ++ base ++ "\n\n" ++
          ("Job Description:\n" ++ "Company Name: " ++ j.company_name ++ "\n" ++
           "Position Title: " ++ j.position_title ++ "\n" ++
           "Responsibilities:\n" ++ j.responsibilities ++ "\n" ++
           "Required Skills: " ++ String.intercalate ", " j.required_skills ++
           "\n" ++ "Location: " ++ j.job_location ++ "\n" ++
           "Job Summary:\n" ++ j.job_summary ++ "\n"))
        ("Additional Notes: " ++ pyOrNA j.additional_notes ++ "\n\n")
        ("Final Tailored Resume (following Jake\x27s format):")
      simp only [resumeJobSection, String.append_assoc]

theorem coverPrompt_notes_slot (u : UserProfile) (j : JobDescription)
    (P : String) (hP : buildCoverLetterPrompt u j = some P) :
    strContains P
      ("Additional Notes: " ++ pyStrOfNotes j.additional_notes ++ "\n\n") := by
  unfold buildCoverLetterPrompt at hP
  cases hL : coverExpLines 1 u.experiences with
  | none => rw [hL] at hP; simp at hP
  | some l =>
      rw [hL] at hP
      simp only [Option.map_some', Option.some.injEq] at hP
      subst hP
      apply strContains_of_eq _
        (coverPromptHead u ++ l ++
          ("\nJob Description:\n" ++ "Company Name: " ++ j.company_name ++
           "\n" ++ "Position Title: " ++ j.position_title ++ "\n" ++
           "Responsibilities:\n" ++ j.responsibilities ++ "\n" ++
           "Required Skills: " ++ String.intercalate ", " j.required_skills ++
           "\n" ++ "Location: " ++ j.job_location ++ "\n" ++
           "Job Summary:\n" ++ j.job_summary ++ "\n"))
        ("Additional Notes: " ++ pyStrOfNotes j.additional_notes ++ "\n\n")
        ("Now write the cover letter following Dedy\x27s format.")
      simp only [coverJobSection, String.append_assoc]

/-- C6: the tailored-resume prompt carries the notes slot with the Python
or-default — the notes value when it is present and truthy, the
literal `N/A` when it is `None` or empty — while the cover-letter prompt
carries the f-string rendering of the stored value with no such default
(`pyStrOfNotes` never yields `N/A` unless that is the stored string). -/
theorem additional_notes_defaulting (u : UserProfile) (j : JobDescription) :
    (∀ P, buildResumePrompt u j = some P →
       strContains P ("Additional Notes: " ++ pyOrNA j.additional_notes ++ "\n\n") ∧
       (∀ s, j.additional_notes = some s → s ≠ "" →
          strContains P ("Additional Notes: " ++ s ++ "\n\n")) ∧
       (j.additional_notes = none ∨ j.additional_notes = some "" →
          strContains P ("Additional Notes: " ++ "N/A" ++ "\n\n"))) ∧
    (∀ P, buildCoverLetterPrompt u j = some P →
       strContains P
         ("Additional Notes: " ++ pyStrOfNotes j.additional_notes ++ "\n\n") ∧
       (∀ s, j.additional_notes = some s →
          strContains P ("Additional Notes: " ++ s ++ "\n\n"))) := by
  constructor
  · intro P hP
    refine ⟨resumePrompt_notes_slot u j P hP, ?_, ?_⟩
    · intro s hs hne
      have h := resumePrompt_notes_slot u j P hP
      rw [hs] at h
      rwa [show pyOrNA (some s) = s by
        simp [pyOrNA, String.isEmpty_iff, hne]] at h
    · intro hcase
      have h := resumePrompt_notes_slot u j P hP
      rcases hcase with hn | hn <;> rw [hn] at h
      · exact h
      · simpa [pyOrNA] using h
  · intro P hP
    refine ⟨coverPrompt_notes_slot u j P hP, ?_⟩
    intro s hs
    have h := coverPrompt_notes_slot u j P hP
    rwa [hs] at h

/-- Concrete inputs for the C6 witness: a truthy note. -/
def c6Job : JobDescription :=
  { company_name := "Initech", position_title := "Engineer",
    responsibilities := "Ship code", required_skills := ["SQL"],
    job_location := "Remote", job_summary := "Great job",
    additional_notes := some "Remote OK" }

def c6ResumePrompt : String := (buildResumePrompt fullKeyProfile c6Job).getD ""

def c6CoverPrompt : String :=
  (buildCoverLetterPrompt fullKeyProfile c6Job).getD ""

/-- C6 witness: the theorem applied at a concrete profile and job whose note
is present and nonempty. -/
theorem additional_notes_defaulting_witness :
    strContains c6ResumePrompt ("Additional Notes: " ++ "Remote OK" ++ "\n\n") ∧
    strContains c6CoverPrompt ("Additional Notes: " ++ "Remote OK" ++ "\n\n") :=
  ⟨((additional_notes_defaulting fullKeyProfile c6Job).1 c6ResumePrompt
      rfl).2.1 "Remote OK" rfl (by decide),
   ((additional_notes_defaulting fullKeyProfile c6Job).2 c6CoverPrompt
      rfl).2 "Remote OK" rfl⟩

/-- C10: the credential check is by truthiness, so an empty-string credential
behaves exactly like an absent one: both generators return the error string
and make zero calls. -/
theorem empty_key_behaves_as_missing (llm : String → String)
    (u : UserProfile) (j : JobDescription) :
    generate_tailored_resume (some "") llm u j =
      generate_tailored_resume none llm u j ∧
    generate_cover_letter (some "") llm u j =
      generate_cover_letter none llm u j ∧
    generate_tailored_resume (some "") llm u j =
      (some "[ERROR] OpenAI API key not found. Cannot generate tailored resume.", 0) ∧
    generate_cover_letter (some "") llm u j =
      (some "[ERROR] OpenAI API key not found. Cannot generate cover letter.", 0) :=
  ⟨rfl, rfl, rfl, rfl⟩

theorem digitChar_inj : ∀ a < 10, ∀ b < 10,
    Nat.digitChar a = Nat.digitChar b → a = b := by decide

theorem filename_inj (pre suf s1 s2 : String)
    (h : pre ++ s1 ++ suf = pre ++ s2 ++ suf) : s1 = s2 := by
  have hd := congrArg String.data h
  simp only [String.data_append, List.append_assoc] at hd
  exact String.ext (List.append_cancel_right (List.append_cancel_left hd))

theorem strftimeTs_inj (t1 t2 : Timestamp) (hv1 : t1.valid) (hv2 : t2.valid)
    (h : strftimeTs t1 = strftimeTs t2) : t1 = t2 := by
  obtain ⟨hy1, hmo1a, hmo1, hd1a, hd1, hh1, hmi1, hs1⟩ := hv1
  obtain ⟨hy2, hmo2a, hmo2, hd2a, hd2, hh2, hmi2, hs2⟩ := hv2
  unfold strftimeTs at h
  have hl : pad4 t1.year ++ pad2 t1.month ++ pad2 t1.day ++ ['_'] ++
        pad2 t1.hour ++ pad2 t1.minute ++ pad2 t1.second =
      pad4 t2.year ++ pad2 t2.month ++ pad2 t2.day ++ ['_'] ++
        pad2 t2.hour ++ pad2 t2.minute ++ pad2 t2.second :=
    congrArg String.data h
  simp only [pad4, pad2, List.cons_append, List.nil_append, List.cons.injEq,
    and_true] at hl
  obtain ⟨a1, a2, a3, a4, b1, b2, c1, c2, -, d1e, d2e, e1, e2, f1, f2⟩ := hl
  have A1 := digitChar_inj _ (by omega) _ (by omega) a1
  have A2 := digitChar_inj _ (by omega) _ (by omega) a2
  have A3 := digitChar_inj _ (by omega) _ (by omega) a3
  have A4 := digitChar_inj _ (by omega) _ (by omega) a4
  have B1 := digitChar_inj _ (by omega) _ (by omega) b1
  have B2 := digitChar_inj _ (by omega) _ (by omega) b2
  have C1 := digitChar_inj _ (by omega) _ (by omega) c1
  have C2 := digitChar_inj _ (by omega) _ (by omega) c2
  have D1 := digitChar_inj _ (by omega) _ (by omega) d1e
  have D2 := digitChar_inj _ (by omega) _ (by omega) d2e
  have E1 := digitChar_inj _ (by omega) _ (by omega) e1
  have E2 := digitChar_inj _ (by omega) _ (by omega) e2
  have F1 := digitChar_inj _ (by omega) _ (by omega) f1
  have F2 := digitChar_inj _ (by omega) _ (by omega) f2
  exact Timestamp.ext (by omega) (by omega) (by omega) (by omega) (by omega)
    (by omega)

/-- C7: two `create_output_filenames` calls with the same base name at
timestamps in the same second produce identical (colliding) filename pairs,
while calls at timestamps in different seconds (both in the real
wall-clock ranges) never produce colliding resume or cover-letter
filenames. -/
theorem output_filenames_timestamp_granularity (base : String)
    (t1 t2 : Timestamp) :
    (t1 = t2 →
      create_output_filenames base t1 = create_output_filenames base t2) ∧
    (t1.valid → t2.valid → t1 ≠ t2 →
      (create_output_filenames base t1).1 ≠ (create_output_filenames base t2).1 ∧
      (create_output_filenames base t1).2 ≠ (create_output_filenames base t2).2) := by
  constructor
  · intro h; rw [h]
  · intro hv1 hv2 hne
    constructor
    · intro h
      exact hne (strftimeTs_inj t1 t2 hv1 hv2
        (filename_inj (base ++ "_resume_") ".txt"
          (strftimeTs t1) (strftimeTs t2) h))
    · intro h
      exact hne (strftimeTs_inj t1 t2 hv1 hv2
        (filename_inj (base ++ "_cover_letter_") ".txt"
          (strftimeTs t1) (strftimeTs t2) h))

/-- C7 witness: same second collides, one second apart never collides. -/
theorem output_filenames_timestamp_granularity_witness :
    create_output_filenames "application" (Timestamp.mk 2024 5 6 7 8 9) =
      create_output_filenames "application" (Timestamp.mk 2024 5 6 7 8 9) ∧
    ((create_output_filenames "application" (Timestamp.mk 2024 5 6 7 8 9)).1 ≠
      (create_output_filenames "application" (Timestamp.mk 2024 5 6 7 8 10)).1 ∧
     (create_output_filenames "application" (Timestamp.mk 2024 5 6 7 8 9)).2 ≠
      (create_output_filenames "application" (Timestamp.mk 2024 5 6 7 8 10)).2) :=
  ⟨(output_filenames_timestamp_granularity "application"
      (Timestamp.mk 2024 5 6 7 8 9) (Timestamp.mk 2024 5 6 7 8 9)).1 rfl,
   (output_filenames_timestamp_granularity "application"
      (Timestamp.mk 2024 5 6 7 8 9) (Timestamp.mk 2024 5 6 7 8 10)).2
     (by decide) (by decide) (by decide)⟩

end JobApp
